import Mathlib

/-!
Verification of the Floww technical scoring engine and ensemble decision
pipeline.  Each definition below is a shallow embedding of a function of the
Python source; Python floats are modelled as exact rationals (or reals where
the source uses log10 / sqrt), float NaN results are modelled as `Option`
values, and Python dictionaries as association lists.
-/

namespace Floww

/-! ## Trend classification

`YukiAgentService._perform_technical_analysis` (yuki_agent_service.py 355-361)
classifies trend from the chained comparison
`current_price > ema_20 > ema_50` (no MACD condition); the helper
`_determine_trend` (api/agents/routes.py 454-464) uses
`ema_20 > ema_50 and macd_line > 0` (no price condition). -/

inductive Trend where
  | bullish
  | bearish
  | sideways
deriving DecidableEq, Repr

/-- Trend classification of `_perform_technical_analysis`:
bullish when `current_price > ema_20 > ema_50`, bearish when
`current_price < ema_20 < ema_50`, sideways otherwise. -/
def yukiTrendDirection (current_price ema_20 ema_50 : ℚ) : Trend :=
  if current_price > ema_20 ∧ ema_20 > ema_50 then Trend.bullish
  else if current_price < ema_20 ∧ ema_20 < ema_50 then Trend.bearish
  else Trend.sideways

/-- Trend classification of the routes helper `_determine_trend`:
bullish when `ema_20 > ema_50 and macd_line > 0`, bearish when
`ema_20 < ema_50 and macd_line < 0`, sideways otherwise. -/
def routesDetermineTrend (ema_20 ema_50 macd_line : ℚ) : Trend :=
  if ema_20 > ema_50 ∧ macd_line > 0 then Trend.bullish
  else if ema_20 < ema_50 ∧ macd_line < 0 then Trend.bearish
  else Trend.sideways

/-! ## Trade level calculator

`_calculate_entry_levels` (api/agents/routes.py 578-602):
`atr = max(indicators.atr_14, current_price * 0.02)` and fixed multiples of
that risk distance around the current price. -/

structure EntryLevels where
  optimal_entry : ℚ
  entry_range_low : ℚ
  entry_range_high : ℚ
  stop_loss : ℚ
  target_1 : ℚ
  target_2 : ℚ
deriving DecidableEq, Repr

/-- Embedding of `_calculate_entry_levels` (the non-exceptional branch). -/
def calculateEntryLevels (current_price atr_14 : ℚ) : EntryLevels :=
  let atr := max atr_14 (current_price * 0.02)
  { optimal_entry := current_price
    entry_range_low := current_price - atr * 0.5
    entry_range_high := current_price + atr * 0.5
    stop_loss := current_price - atr * 1.5
    target_1 := current_price + atr * 2
    target_2 := current_price + atr * 3.5 }

/-! ## RSI

`YukiAgentService._calculate_rsi` (yuki_agent_service.py 810-817) and
`BinanceService._calculate_rsi` (binance_service.py 254-267).  Both compute
`delta = prices.diff()`, rolling(14) means of gains and losses, and
`rsi = 100 - 100 / (1 + gain/loss)` at the last index.  `where` turns the
leading NaN of `diff` into 0 (NaN > 0 is False), so the rolling mean at the
last index is NaN exactly when the series has fewer than 14 prices; at
exactly 14 prices the window holds the 13 real deltas plus that artificial 0,
which adds nothing to the sum divided by 14.  In float arithmetic
`gain/0 = inf` for positive gain, giving rsi = 100, and `0/0 = NaN`.
The yuki variant maps a NaN result to 50.0 (`pd.isna` check); the binance
variant only checks `rsi.empty`, so a NaN from a non-empty series is returned
as-is — modelled here as `none`. -/

/-- Signed first differences of a price series (`prices.diff()`, dropping the
leading NaN). -/
def priceDeltas (prices : List ℚ) : List ℚ :=
  List.zipWith (fun a b => b - a) prices prices.tail

/-- The last `n` elements of a list (the final rolling window). -/
def lastWindow (n : ℕ) (l : List ℚ) : List ℚ :=
  l.drop (l.length - n)

/-- Rolling(14) mean of gains at the last index
(`delta.where(delta > 0, 0)` keeps a delta exactly when it is positive). -/
def avgGain (prices : List ℚ) : ℚ :=
  ((lastWindow 14 (priceDeltas prices)).map (fun d => if 0 < d then d else 0)).sum / 14

/-- Rolling(14) mean of losses at the last index
(`-delta.where(delta < 0, 0)` keeps the negated delta exactly when it is
negative). -/
def avgLoss (prices : List ℚ) : ℚ :=
  ((lastWindow 14 (priceDeltas prices)).map (fun d => if d < 0 then -d else 0)).sum / 14

/-- Embedding of `YukiAgentService._calculate_rsi` for period 14.  Fewer than
14 prices leave the last rolling mean NaN, and `pd.isna` then yields the 50.0
fallback; so does the 0/0 case (zero average gain and loss). -/
def calculateRsi (prices : List ℚ) : ℚ :=
  if prices.length < 14 then 50
  else if avgLoss prices > 0 then
    100 - 100 / (1 + avgGain prices / avgLoss prices)
  else if avgGain prices > 0 then 100
  else 50

/-- Embedding of `BinanceService._calculate_rsi` for period 14.  The guard is
`if not rsi.empty else 50.0`: an empty price series gives 50.0, but a
non-empty series shorter than 14 (or one with zero average gain and loss)
leaves `rsi.iloc[-1]` as NaN, which the function returns — modelled `none`. -/
def binanceRsi (prices : List ℚ) : Option ℚ :=
  if prices = [] then some 50
  else if prices.length < 14 then none
  else if avgLoss prices > 0 then
    some (100 - 100 / (1 + avgGain prices / avgLoss prices))
  else if avgGain prices > 0 then some 100
  else none

/-! ## Rule-based fallback decision makers

`LLMAnalysisService._fallback_analysis` (llm_analysis_service.py 846-923)
and `RyuAgentService._create_fallback_analysis`
(ryu_agent_service.py 553-582). -/

inductive Recommendation where
  | BUY
  | SELL
  | HOLD
deriving DecidableEq, Repr

/-- The market-context fields `_fallback_analysis` reads. -/
structure MarketCtx where
  current_price : ℚ
  price_change_24h : ℚ
  volume_24h : ℚ
  volatility : ℚ
  rsi : ℚ
  macd : ℚ
deriving DecidableEq, Repr

/-- RSI confidence factor of `_fallback_analysis`. -/
def rsiConfidence (rsi : ℚ) : ℚ :=
  if rsi < 20 then 0.8
  else if rsi < 30 then 0.7
  else if rsi > 80 then 0.8
  else if rsi > 70 then 0.7
  else if 40 ≤ rsi ∧ rsi ≤ 60 then 0.4
  else 0.5

/-- Volume confidence factor: `min(0.8, max(0.3, volume_24h / 10000000))`. -/
def volumeConfidence (volume_24h : ℚ) : ℚ :=
  min 0.8 (max 0.3 (volume_24h / 10000000))

/-- Volatility confidence factor of `_fallback_analysis`. -/
def volatilityConfidence (volatility : ℚ) : ℚ :=
  if 0.02 ≤ volatility ∧ volatility ≤ 0.08 then 0.7
  else if volatility > 0.15 then 0.3
  else if volatility < 0.01 then 0.4
  else 0.5

/-- MACD confidence factor: `0.6 if abs(macd_value) > 0.001 else 0.4`. -/
def macdConfidence (macd : ℚ) : ℚ :=
  if |macd| > 0.001 then 0.6 else 0.4

/-- Average of the four confidence factors of `_fallback_analysis`. -/
def baseConfidence (c : MarketCtx) : ℚ :=
  (rsiConfidence c.rsi + volumeConfidence c.volume_24h +
    volatilityConfidence c.volatility + macdConfidence c.macd) / 4

/-- Recommendation and confidence chain of `_fallback_analysis`
(llm_analysis_service.py 904-923). -/
def fallbackDecision (c : MarketCtx) : Recommendation × ℚ :=
  if c.rsi < 30 ∧ c.price_change_24h > -5 ∧ c.volume_24h > 1000000 then
    (Recommendation.BUY, min 0.8 (baseConfidence c + 0.15))
  else if c.rsi > 70 ∧ c.price_change_24h > 5 ∧ c.volatility < 0.1 then
    (Recommendation.SELL, min 0.8 (baseConfidence c + 0.15))
  else if c.rsi < 25 then
    (Recommendation.BUY, min 0.85 (baseConfidence c + 0.2))
  else if c.rsi > 75 then
    (Recommendation.SELL, min 0.85 (baseConfidence c + 0.2))
  else if c.macd > 0.005 ∧ c.price_change_24h > 0 ∧ c.rsi < 60 then
    (Recommendation.BUY, min 0.7 (baseConfidence c + 0.1))
  else (Recommendation.HOLD, baseConfidence c)

/-- Embedding of `RyuAgentService._create_fallback_analysis`
(ryu_agent_service.py 557-568). -/
def ryuFallbackDecision (change_24h rsi : ℚ) : Recommendation × ℚ :=
  if change_24h > 2 ∧ rsi < 70 then (Recommendation.BUY, 0.6)
  else if change_24h < -2 ∧ rsi > 30 then (Recommendation.SELL, 0.6)
  else (Recommendation.HOLD, 0.5)

/-! ## Rate limiter

`BinanceRateLimiter.acquire` (binance_service.py 62-94).  An acquire call is
modelled by the wall-clock time `t` at entry (`time.time()`) and the
wall-clock time `ta` read after the optional minimum-interval sleep; physical
time gives `t ≤ ta`.  The deque of request timestamps and
`last_request_time` form the state. -/

/-- Constant `requests_per_minute` of `BinanceRateLimiter`. -/
def requestsPerMinute : ℕ := 1000

/-- Constant `min_request_interval = 1.0 / requests_per_second` with 16
requests per second. -/
def minRequestInterval : ℚ := 1 / 16

structure RLState where
  request_times : List ℚ
  last_request_time : ℚ
deriving DecidableEq, Repr

/-- Embedding of `BinanceRateLimiter.acquire`.  Old timestamps (strictly
older than `t - 60`) are popped from the front; if the remaining count has
reached the per-minute ceiling the call is refused without recording;
otherwise the recorded timestamp is `t`, or the post-sleep time `ta` when the
minimum interval forced a sleep. -/
def rlAcquire (t ta : ℚ) (s : RLState) : Bool × RLState :=
  let kept := s.request_times.dropWhile (fun x => decide (x < t - 60))
  if requestsPerMinute ≤ kept.length then
    (false, { request_times := kept, last_request_time := s.last_request_time })
  else
    let recT := if t - s.last_request_time < minRequestInterval then ta else t
    (true, { request_times := kept ++ [recT], last_request_time := recT })

/-- Fresh limiter state (`request_times` empty, `last_request_time = 0`). -/
def rlInit : RLState := { request_times := [], last_request_time := 0 }

/-- Run a sequence of acquire calls, collecting the granted (recorded)
timestamps in order. -/
def rlRun : RLState → List ℚ → List (ℚ × ℚ) → RLState × List ℚ
  | s, h, [] => (s, h)
  | s, h, (t, ta) :: calls =>
    let r := rlAcquire t ta s
    rlRun r.2 (if r.1 then h ++ [r.2.last_request_time] else h) calls

/-- Chronology of a call sequence relative to a lower bound `c` on cutoffs:
each call time is at least 60 seconds after the running cutoff bound, and the
post-sleep clock reading is no earlier than the entry reading. -/
def rlChron : ℚ → List (ℚ × ℚ) → Prop
  | _, [] => True
  | c, (t, ta) :: calls => c ≤ t - 60 ∧ t ≤ ta ∧ rlChron (t - 60) calls

/-- Number of timestamps of `l` inside the sliding window `(w, w + 60]`. -/
def rlWindowCount (w : ℚ) (l : List ℚ) : ℕ :=
  (l.filter (fun x => decide (w < x ∧ x ≤ w + 60))).length

/-! ## Opportunity scorer

`YukiAgentService._calculate_opportunity_score` (yuki_agent_service.py
432-524).  The scoring weights are volume 0.25, volatility 0.20,
momentum 0.30, trend 0.15 and institutional 0.10; the institutional score is
the constant placeholder 0.5.  `np.log10` forces a real-valued embedding. -/

structure ScoreInput where
  current_price : ℝ
  price_change_24h : ℝ
  volume_24h : ℝ
  high_24h : ℝ
  low_24h : ℝ

/-- Weight of the volume sub-score. -/
def wVolume : ℝ := 0.25

/-- Weight of the volatility sub-score. -/
def wVolatility : ℝ := 0.20

/-- Weight of the momentum sub-score. -/
def wMomentum : ℝ := 0.30

/-- Weight of the trend/setup sub-score. -/
def wTrend : ℝ := 0.15

/-- Weight of the institutional placeholder score. -/
def wInstitutional : ℝ := 0.10

/-- Institutional score: a constant placeholder. -/
def institutionalScore : ℝ := 0.5

/-- Volume sub-score: `min(1.0, np.log10(volume_usdt / 1_000_000) / 3)`. -/
noncomputable def volumeScore (volume_24h : ℝ) : ℝ :=
  min 1 (Real.logb 10 (volume_24h / 1000000) / 3)

/-- The 24h volatility used by the scorer:
`(high - low) / current_price if current_price > 0 else 0`. -/
noncomputable def volatilityOf (inp : ScoreInput) : ℝ :=
  if inp.current_price > 0 then (inp.high_24h - inp.low_24h) / inp.current_price
  else 0

/-- Volatility sub-score (optimal range up to 20 percent). -/
noncomputable def volatilityScore (volatility : ℝ) : ℝ :=
  if volatility ≤ 0.20 then volatility / 0.20
  else max 0.1 (1 - (volatility - 0.20) / 0.30)

/-- Momentum sub-score of the absolute 24h price change percentage. -/
noncomputable def momentumScoreOf (price_change_24h : ℝ) : ℝ :=
  let pct := |price_change_24h|
  if pct ≤ 5 then pct / 5
  else if pct ≤ 15 then 1 - (pct - 5) / 15
  else max 0 (0.3 - (pct - 15) / 30)

inductive SetupType where
  | short_setup
  | long_setup
  | approaching_level
  | neutral
deriving DecidableEq, Repr

/-- Setup sub-score and setup type from the position of the price in the
daily range (yuki_agent_service.py 470-489). -/
noncomputable def setupScoreOf (inp : ScoreInput) : ℝ × SetupType :=
  if inp.high_24h ≠ inp.low_24h then
    let pos := (inp.current_price - inp.low_24h) / (inp.high_24h - inp.low_24h)
    if pos ≥ 0.8 then (0.9, SetupType.short_setup)
    else if pos ≤ 0.2 then (0.9, SetupType.long_setup)
    else if (0.65 ≤ pos ∧ pos ≤ 0.8) ∨ (0.2 ≤ pos ∧ pos ≤ 0.35) then
      (0.7, SetupType.approaching_level)
    else (0.4, SetupType.neutral)
  else (0.5, SetupType.neutral)

/-- Overall opportunity score: the five-way weighted sum, clamped to
`[0, 1]` by `max(0.0, min(1.0, overall_score))`. -/
noncomputable def overallScore (inp : ScoreInput) : ℝ :=
  max 0 (min 1
    (wVolume * volumeScore inp.volume_24h +
      wVolatility * volatilityScore (volatilityOf inp) +
      wMomentum * momentumScoreOf inp.price_change_24h +
      wTrend * (setupScoreOf inp).1 +
      wInstitutional * institutionalScore))

/-! ## Bollinger bands and band position

`YukiAgentService._calculate_bollinger_bands` (yuki_agent_service.py
833-844) and the band position at line 336:
`(current_price - bb_lower) / (bb_upper - bb_lower) if bb_upper != bb_lower
else 0.5`, with the current price being the last close of the same series.
`rolling(20).std()` is the sample standard deviation (ddof = 1); with fewer
than 20 prices the rolling values are NaN and the bands are (0, 0, 0). -/

/-- The last `n` elements of a real-valued series. -/
def lastWindowR (n : ℕ) (l : List ℝ) : List ℝ :=
  l.drop (l.length - n)

/-- Rolling(20) mean at the last index. -/
noncomputable def rollingMean20 (l : List ℝ) : ℝ :=
  (lastWindowR 20 l).sum / 20

/-- Rolling(20) sample standard deviation (ddof = 1) at the last index. -/
noncomputable def rollingStd20 (l : List ℝ) : ℝ :=
  Real.sqrt (((lastWindowR 20 l).map (fun x => (x - rollingMean20 l) ^ 2)).sum / 19)

/-- Upper Bollinger band (`middle + std * 2`), 0 on insufficient history. -/
noncomputable def bbUpper (l : List ℝ) : ℝ :=
  if l.length < 20 then 0 else rollingMean20 l + rollingStd20 l * 2

/-- Middle Bollinger band, 0 on insufficient history. -/
noncomputable def bbMiddle (l : List ℝ) : ℝ :=
  if l.length < 20 then 0 else rollingMean20 l

/-- Lower Bollinger band (`middle - std * 2`), 0 on insufficient history. -/
noncomputable def bbLower (l : List ℝ) : ℝ :=
  if l.length < 20 then 0 else rollingMean20 l - rollingStd20 l * 2

/-- Position of the last close within the bands (yuki_agent_service.py 336). -/
noncomputable def bbPosition (l : List ℝ) : ℝ :=
  if bbUpper l ≠ bbLower l then
    (l.getLastD 0 - bbLower l) / (bbUpper l - bbLower l)
  else 0.5

/-! ## Resilient decision parsing

`LLMAnalysisService._parse_json_with_fallbacks` (llm_analysis_service.py
698-786) and the record construction of `_parse_llm_response`
(llm_analysis_service.py 569-619).  Parsed JSON-like data is modelled as an
association list of string keys and values.  The outcomes of the first three
strategies (direct parse, extra cleaning, `ast.literal_eval`) and the
key-value scrape of strategy 4 are inputs of the combinator, which is the
source's control flow: first success wins, a non-empty scrape is used as a
last resort, and when everything fails the function returns the empty dict —
it has no failure result at all. -/

inductive JVal where
  | jstr : String → JVal
  | jnum : ℚ → JVal
  | jbool : Bool → JVal
  | jnull : JVal
  | jarr : List JVal → JVal
  | jobj : List (String × JVal) → JVal

/-- Dictionaries produced by the parsing strategies. -/
abbrev JDict := List (String × JVal)

/-- Dictionary lookup `d.get(k)`: the first value stored under `k`, if any. -/
def dictGet (d : JDict) (k : String) : Option JVal :=
  match d.find? (fun p => p.1 == k) with
  | some p => some p.2
  | none => none

/-- Embedding of `_parse_json_with_fallbacks`: strategies 1-3 in order, then
the strategy-4 scrape if it found any pair, else the empty dict. -/
def parseJsonWithFallbacks (s1 s2 s3 : Option JDict) (s4 : JDict) : JDict :=
  match s1 with
  | some d => d
  | none =>
    match s2 with
    | some d => d
    | none =>
      match s3 with
      | some d => d
      | none => if s4.isEmpty then [] else s4

/-- Embedding of `safe_float`: numbers pass through, dicts are probed for a
`value` key, `None` and anything non-numeric fall back (the modelled
strategies do not produce numeric string literals), Python booleans convert
to 0/1. -/
def safeFloat (v : Option JVal) (fallback : ℚ) : ℚ :=
  match v with
  | some (JVal.jnum q) => q
  | some (JVal.jobj o) =>
    match dictGet o "value" with
    | some (JVal.jnum q) => q
    | _ => fallback
  | some (JVal.jbool b) => if b then 1 else 0
  | _ => fallback

/-- Python `str.upper`, written as a character map so that it evaluates by
kernel reduction (`String.toUpper` is the same map). -/
def strUpper (s : String) : String := String.mk (s.data.map Char.toUpper)

/-- String lookup with default (`d.get(k, default)` where the parsed value is
expected to be a string). -/
def getStr (d : JDict) (k : String) (dflt : String) : String :=
  match dictGet d k with
  | some (JVal.jstr s) => s
  | _ => dflt

/-- Nested-object lookup: `d.get(k, {})` collapsed to an association list. -/
def getObj (d : JDict) (k : String) : JDict :=
  match dictGet d k with
  | some (JVal.jobj o) => o
  | _ => []

/-- Array lookup with default `[]`. -/
def getArr (d : JDict) (k : String) : List JVal :=
  match dictGet d k with
  | some (JVal.jarr a) => a
  | _ => []

/-- Python truthiness of a looked-up value, default `False`. -/
def getTruthy (d : JDict) (k : String) : Bool :=
  match dictGet d k with
  | some (JVal.jbool b) => b
  | some (JVal.jnum q) => decide (q ≠ 0)
  | some (JVal.jstr s) => decide (s ≠ "")
  | some (JVal.jarr a) => !a.isEmpty
  | some (JVal.jobj o) => !o.isEmpty
  | _ => false

/-- Optional float `safe_float(d.get(k)) if d.get(k) is not None else None`. -/
def optFloat (d : JDict) (k : String) : Option ℚ :=
  match dictGet d k with
  | none => none
  | some JVal.jnull => none
  | some v => some (safeFloat (some v) 0)

structure EntryStrategyR where
  optimal_entry : ℚ
  entry_range_low : ℚ
  entry_range_high : ℚ
  market_order_ok : Bool

structure PriceTargetsR where
  target_1 : Option ℚ
  target_2 : Option ℚ
  target_3 : Option ℚ

structure RiskManagementR where
  stop_loss : Option ℚ
  position_size : String
  max_leverage : String

/-- The `LLMAnalysis` record fields built by `_parse_llm_response`. -/
structure LLMAnalysisR where
  recommendation : String
  confidence : ℚ
  action_summary : String
  reasoning : String
  key_factors : List JVal
  risk_assessment : String
  time_horizon : String
  entry_strategy : Option EntryStrategyR
  price_targets : Option PriceTargetsR
  risk_management : Option RiskManagementR
  market_regime : String
  execution_notes : String
  position_sizing : String
  stop_loss_level : Option ℚ
  take_profit_level : Option ℚ
  contrarian_signals : List JVal

/-- Record construction of `_parse_llm_response` from the dict returned by
`_parse_json_with_fallbacks` (llm_analysis_service.py 569-619). -/
def parseLLMFromDict (current_price : ℚ) (d : JDict) : LLMAnalysisR :=
  let entry_data := getObj d "entry_strategy"
  let targets_data := getObj d "price_targets"
  let risk_data := getObj d "risk_management"
  { recommendation := strUpper (getStr d "recommendation" "HOLD")
    confidence := max 0 (min 1 (safeFloat (dictGet d "confidence") 0.5))
    action_summary :=
      getStr d "action_summary" "Hold position - market conditions unclear"
    reasoning := getStr d "reasoning" "LLM analysis unavailable"
    key_factors := getArr d "key_factors"
    risk_assessment := strUpper (getStr d "risk_assessment" "MEDIUM")
    time_horizon := getStr d "time_horizon" "1-7 days"
    entry_strategy :=
      if !entry_data.isEmpty then
        some { optimal_entry := safeFloat (dictGet entry_data "optimal_entry") current_price
               entry_range_low :=
                 safeFloat (dictGet entry_data "entry_range_low") (current_price * 0.98)
               entry_range_high :=
                 safeFloat (dictGet entry_data "entry_range_high") (current_price * 1.02)
               market_order_ok := getTruthy entry_data "market_order_ok" }
      else none
    price_targets :=
      if !targets_data.isEmpty then
        some { target_1 := optFloat targets_data "target_1"
               target_2 := optFloat targets_data "target_2"
               target_3 := optFloat targets_data "target_3" }
      else none
    risk_management :=
      if !risk_data.isEmpty then
        some { stop_loss := optFloat risk_data "stop_loss"
               position_size := getStr risk_data "position_size" "5-10% of portfolio"
               max_leverage := getStr risk_data "max_leverage" "5x" }
      else none
    market_regime := strUpper (getStr d "market_regime" "UNCERTAIN")
    execution_notes := getStr d "execution_notes" ""
    position_sizing := strUpper (getStr d "position_sizing" "MEDIUM")
    stop_loss_level := if !risk_data.isEmpty then optFloat risk_data "stop_loss" else none
    take_profit_level := if !targets_data.isEmpty then optFloat targets_data "target_1" else none
    contrarian_signals := getArr d "contrarian_signals" }

/-- The record `_parse_llm_response` builds when every field falls back to
its default: this is exactly what an empty parsed dict produces. -/
def defaultLLMAnalysisR : LLMAnalysisR :=
  { recommendation := "HOLD"
    confidence := 0.5
    action_summary := "Hold position - market conditions unclear"
    reasoning := "LLM analysis unavailable"
    key_factors := []
    risk_assessment := "MEDIUM"
    time_horizon := "1-7 days"
    entry_strategy := none
    price_targets := none
    risk_management := none
    market_regime := "UNCERTAIN"
    execution_notes := ""
    position_sizing := "MEDIUM"
    stop_loss_level := none
    take_profit_level := none
    contrarian_signals := [] }

/-! ## Surfacing of the AI decision

`YukiAgentService.analyze_specific_token` (yuki_agent_service.py 218-223):
`if not ai_decision or ai_decision.recommendation == 'HOLD'` the analysis
field is `None` with an error message, otherwise a platform signal built from
the decision is surfaced. -/

/-- The decision fields `analyze_specific_token` forwards into the signal. -/
structure AIDecisionR where
  recommendation : Recommendation
  confidence : ℚ
  entry_price : ℚ
  target_1 : ℚ
  target_2 : ℚ
  stop_loss : ℚ
deriving DecidableEq, Repr

structure AnalysisOutcome where
  analysis : Option AIDecisionR
  error : Option String
deriving DecidableEq, Repr

/-- Outcome step of `analyze_specific_token` after the AI/fallback decision:
no decision or a HOLD yields a `None` analysis plus an error message;
otherwise the decision is surfaced as the signal. -/
def analyzeSpecificTokenOutcome (d : Option AIDecisionR) : AnalysisOutcome :=
  match d with
  | none =>
    { analysis := none
      error := some ("No trading signal generated - market conditions unclear") }
  | some dec =>
    if dec.recommendation = Recommendation.HOLD then
      { analysis := none
        error := some ("No trading signal generated - market conditions unclear") }
    else { analysis := some dec, error := none }

/-- Concrete 20-close series: mean 100, sample variance 4 (deviations are
fourteen zeros and -6, 1, -1, 1, -1, 6), so the bands are 96 and 104 while
the last close is 106 — above the upper band. -/
def bbExampleA : List ℝ :=
  [100, 100, 100, 100, 100, 100, 100, 100, 100, 100, 100, 100, 100, 100,
   94, 101, 99, 101, 99, 106]

/-- Concrete 20-close series: mean 100 with positive variance, and the last
close sits exactly at the band middle. -/
def bbExampleB : List ℝ :=
  [98, 102, 100, 100, 100, 100, 100, 100, 100, 100, 100, 100, 100, 100,
   100, 100, 100, 100, 100, 100]

/-! ## Helper lemmas -/

theorem avgGain_nonneg (prices : List ℚ) : 0 ≤ avgGain prices := by
  unfold avgGain
  apply div_nonneg _ (by norm_num)
  apply List.sum_nonneg
  intro x hx
  simp only [List.mem_map] at hx
  obtain ⟨d, _, rfl⟩ := hx
  split_ifs with h
  · exact h.le
  · exact le_refl 0

theorem avgLoss_nonneg (prices : List ℚ) : 0 ≤ avgLoss prices := by
  unfold avgLoss
  apply div_nonneg _ (by norm_num)
  apply List.sum_nonneg
  intro x hx
  simp only [List.mem_map] at hx
  obtain ⟨d, _, rfl⟩ := hx
  split_ifs with h
  · linarith
  · exact le_refl 0

theorem rsiConfidence_lb (rsi : ℚ) (h : rsi < 30) : 0.7 ≤ rsiConfidence rsi := by
  unfold rsiConfidence
  split_ifs <;> first | norm_num | linarith

theorem volumeConfidence_bounds (v : ℚ) :
    0.3 ≤ volumeConfidence v ∧ volumeConfidence v ≤ 0.8 := by
  unfold volumeConfidence
  exact ⟨le_min (by norm_num) (le_max_left _ _), min_le_left _ _⟩

theorem volatilityConfidence_lb (v : ℚ) : 0.3 ≤ volatilityConfidence v := by
  unfold volatilityConfidence
  split_ifs <;> norm_num

theorem macdConfidence_lb (m : ℚ) : 0.4 ≤ macdConfidence m := by
  unfold macdConfidence
  split_ifs <;> norm_num

theorem baseConfidence_lb (c : MarketCtx) (h : c.rsi < 30) :
    0.425 ≤ baseConfidence c := by
  have h1 := rsiConfidence_lb c.rsi h
  have h2 := (volumeConfidence_bounds c.volume_24h).1
  have h3 := volatilityConfidence_lb c.volatility
  have h4 := macdConfidence_lb c.macd
  unfold baseConfidence
  linarith

/-! ## Claim theorems -/

/-- C5: for every positive current price and nonnegative ATR, the trade level
calculator uses risk distance `max(ATR_14, price * 0.02)`, sets
`stop_loss = entry - 1.5 * rd`, `target_1 = entry + 2 * rd`,
`target_2 = entry + 3.5 * rd`, and consequently
`stop_loss < entry < target_1 < target_2`. -/
theorem C5_trade_levels (current_price atr_14 : ℚ)
    (hp : 0 < current_price) (h_atr : 0 ≤ atr_14) :
    (calculateEntryLevels current_price atr_14).optimal_entry = current_price ∧
    (calculateEntryLevels current_price atr_14).stop_loss
      = current_price - 1.5 * max atr_14 (current_price * 0.02) ∧
    (calculateEntryLevels current_price atr_14).target_1
      = current_price + 2 * max atr_14 (current_price * 0.02) ∧
    (calculateEntryLevels current_price atr_14).target_2
      = current_price + 3.5 * max atr_14 (current_price * 0.02) ∧
    (calculateEntryLevels current_price atr_14).stop_loss
      < (calculateEntryLevels current_price atr_14).optimal_entry ∧
    (calculateEntryLevels current_price atr_14).optimal_entry
      < (calculateEntryLevels current_price atr_14).target_1 ∧
    (calculateEntryLevels current_price atr_14).target_1
      < (calculateEntryLevels current_price atr_14).target_2 := by
  have hrd : 0 < max atr_14 (current_price * 0.02) := by
    have h2 : 0 < current_price * 0.02 := by nlinarith
    exact lt_max_of_lt_right h2
  have e2 : (calculateEntryLevels current_price atr_14).stop_loss
      = current_price - 1.5 * max atr_14 (current_price * 0.02) := by
    simp only [calculateEntryLevels]
    ring
  have e3 : (calculateEntryLevels current_price atr_14).target_1
      = current_price + 2 * max atr_14 (current_price * 0.02) := by
    simp only [calculateEntryLevels]
    ring
  have e4 : (calculateEntryLevels current_price atr_14).target_2
      = current_price + 3.5 * max atr_14 (current_price * 0.02) := by
    simp only [calculateEntryLevels]
    ring
  refine ⟨rfl, e2, e3, e4, ?_, ?_, ?_⟩
  · rw [e2]
    show current_price - 1.5 * max atr_14 (current_price * 0.02) < current_price
    linarith
  · rw [e3]
    show (current_price : ℚ) < current_price + 2 * max atr_14 (current_price * 0.02)
    linarith
  · rw [e3, e4]
    linarith

/-- C5 witness: the trade levels at price 100 and ATR 5. -/
theorem C5_trade_levels_witness :
    (calculateEntryLevels 100 5).optimal_entry = 100 ∧
    (calculateEntryLevels 100 5).stop_loss = 100 - 1.5 * max 5 (100 * 0.02) ∧
    (calculateEntryLevels 100 5).target_1 = 100 + 2 * max 5 (100 * 0.02) ∧
    (calculateEntryLevels 100 5).target_2 = 100 + 3.5 * max 5 (100 * 0.02) ∧
    (calculateEntryLevels 100 5).stop_loss < (calculateEntryLevels 100 5).optimal_entry ∧
    (calculateEntryLevels 100 5).optimal_entry < (calculateEntryLevels 100 5).target_1 ∧
    (calculateEntryLevels 100 5).target_1 < (calculateEntryLevels 100 5).target_2 :=
  C5_trade_levels 100 5 (by norm_num) (by norm_num)

/-- C8 counterexample: with price 100 above EMA20 = 90 above EMA50 = 80 but a
negative MACD line, the yuki trend classification is bullish, while the claim
requires MACD line > 0 for bullish. -/
theorem C8_counterexample :
    ¬ (∀ p e20 e50 m : ℚ,
        (yukiTrendDirection p e20 e50 = Trend.bullish ↔ p > e20 ∧ e20 > e50 ∧ m > 0) ∧
        (routesDetermineTrend e20 e50 m = Trend.bullish ↔ p > e20 ∧ e20 > e50 ∧ m > 0)) := by
  intro h
  have h1 := (h 100 90 80 (-1)).1.mp (by decide)
  exact absurd h1.2.2 (by norm_num)

/-- C8 amended: the yuki classification is bullish exactly when
price > EMA20 > EMA50 (no MACD condition) and bearish exactly when
price < EMA20 < EMA50; the routes helper is bullish exactly when
EMA20 > EMA50 and MACD line > 0 (no price condition) and bearish exactly when
EMA20 < EMA50 and MACD line < 0; each is sideways otherwise. -/
theorem C8_trend_amended (p e20 e50 m : ℚ) :
    (yukiTrendDirection p e20 e50 = Trend.bullish ↔ p > e20 ∧ e20 > e50) ∧
    (yukiTrendDirection p e20 e50 = Trend.bearish ↔ p < e20 ∧ e20 < e50) ∧
    (routesDetermineTrend e20 e50 m = Trend.bullish ↔ e20 > e50 ∧ m > 0) ∧
    (routesDetermineTrend e20 e50 m = Trend.bearish ↔ e20 < e50 ∧ m < 0) := by
  refine ⟨?_, ?_, ?_, ?_⟩
  · unfold yukiTrendDirection
    split_ifs with h1 h2
    · simp [h1]
    · simpa using h1
    · simpa using h1
  · unfold yukiTrendDirection
    split_ifs with h1 h2
    · simp only [iff_def]
      constructor
      · intro hfalse
        exact absurd hfalse (by simp)
      · intro hc
        exact absurd h1.1 (lt_asymm hc.1)
    · simp [h2]
    · simpa using h2
  · unfold routesDetermineTrend
    split_ifs with h1 h2
    · simp [h1]
    · simpa using h1
    · simpa using h1
  · unfold routesDetermineTrend
    split_ifs with h1 h2
    · simp only [iff_def]
      constructor
      · intro hfalse
        exact absurd hfalse (by simp)
      · intro hc
        exact absurd h1.1 (lt_asymm hc.1)
    · simp [h2]
    · simpa using h2

/-- C10: whenever the decision step yields no decision or a HOLD,
`analyze_specific_token` surfaces a `None` analysis together with an error
message, and a surfaced analysis never carries a HOLD recommendation. -/
theorem C10_hold_not_surfaced :
    (∀ d : Option AIDecisionR,
        (d = none ∨ ∃ dec, d = some dec ∧ dec.recommendation = Recommendation.HOLD) →
        (analyzeSpecificTokenOutcome d).analysis = none ∧
          (analyzeSpecificTokenOutcome d).error
            = some ("No trading signal generated - market conditions unclear")) ∧
    (∀ (d : Option AIDecisionR) (dec : AIDecisionR),
        (analyzeSpecificTokenOutcome d).analysis = some dec →
        dec.recommendation ≠ Recommendation.HOLD) := by
  constructor
  · rintro d (rfl | ⟨dec, rfl, hdec⟩)
    · exact ⟨rfl, rfl⟩
    · simp [analyzeSpecificTokenOutcome, hdec]
  · intro d dec h
    match d with
    | none => simp [analyzeSpecificTokenOutcome] at h
    | some dec0 =>
      by_cases hr : dec0.recommendation = Recommendation.HOLD
      · simp [analyzeSpecificTokenOutcome, hr] at h
      · simp only [analyzeSpecificTokenOutcome, if_neg hr, Option.some.injEq] at h
        exact h ▸ hr

/-- C10 witness: a missing decision yields the `None` analysis and the error
message. -/
theorem C10_hold_not_surfaced_witness :
    (analyzeSpecificTokenOutcome none).analysis = none ∧
    (analyzeSpecificTokenOutcome none).error
      = some ("No trading signal generated - market conditions unclear") :=
  C10_hold_not_surfaced.1 none (Or.inl rfl)

/-- C4 counterexample: a context with RSI 25 (< 30), 24h change +6 percent
(> -5), and volume 2,000,000 above the 1,000,000 floor, but volatility 0.2 and
zero MACD, satisfies the claim's hypotheses, and the fallback returns BUY with
confidence 0.575, strictly below 0.6. -/
theorem C4_counterexample :
    (fallbackDecision
        { current_price := 100, price_change_24h := 6, volume_24h := 2000000,
          volatility := 0.2, rsi := 25, macd := 0 }).1 = Recommendation.BUY ∧
    (fallbackDecision
        { current_price := 100, price_change_24h := 6, volume_24h := 2000000,
          volatility := 0.2, rsi := 25, macd := 0 }).2 = 0.575 ∧
    ¬ (0.6 ≤ (fallbackDecision
        { current_price := 100, price_change_24h := 6, volume_24h := 2000000,
          volatility := 0.2, rsi := 25, macd := 0 }).2) := by
  norm_num [fallbackDecision, baseConfidence, rsiConfidence, volumeConfidence,
    volatilityConfidence, macdConfidence, min_def, max_def]

/-- C4 amended: under RSI < 30, 24h change > -5 and volume above the
1,000,000 floor, the `_fallback_analysis` decision is BUY with confidence in
[0.575, 0.8] (at least 0.6 is not guaranteed), and the ryu fallback variant
returns BUY with fixed confidence 0.6 whenever the 24h change exceeds 2
percent and RSI < 70. -/
theorem C4_fallback_long :
    (∀ c : MarketCtx, c.rsi < 30 → c.price_change_24h > -5 → c.volume_24h > 1000000 →
      (fallbackDecision c).1 = Recommendation.BUY ∧
      0.575 ≤ (fallbackDecision c).2 ∧ (fallbackDecision c).2 ≤ 0.8) ∧
    (∀ change_24h rsi : ℚ, change_24h > 2 → rsi < 70 →
      ryuFallbackDecision change_24h rsi = (Recommendation.BUY, 0.6)) := by
  constructor
  · intro c h1 h2 h3
    have hb := baseConfidence_lb c h1
    unfold fallbackDecision
    rw [if_pos ⟨h1, h2, h3⟩]
    refine ⟨rfl, le_min (by norm_num) (by linarith), min_le_left _ _⟩
  · intro ch rsi h1 h2
    unfold ryuFallbackDecision
    rw [if_pos ⟨h1, h2⟩]

/-- C4 witness: a BTC-like synthetic context (RSI 25, change +6 percent,
high volume) gets a BUY from both fallback variants, with llm-fallback
confidence in [0.575, 0.8] and ryu confidence 0.6. -/
theorem C4_fallback_long_witness :
    ((fallbackDecision
        { current_price := 43387, price_change_24h := 6, volume_24h := 5000000000,
          volatility := 0.03, rsi := 25, macd := 0.5 }).1 = Recommendation.BUY ∧
      0.575 ≤ (fallbackDecision
        { current_price := 43387, price_change_24h := 6, volume_24h := 5000000000,
          volatility := 0.03, rsi := 25, macd := 0.5 }).2 ∧
      (fallbackDecision
        { current_price := 43387, price_change_24h := 6, volume_24h := 5000000000,
          volatility := 0.03, rsi := 25, macd := 0.5 }).2 ≤ 0.8) ∧
    ryuFallbackDecision 6 25 = (Recommendation.BUY, 0.6) :=
  ⟨C4_fallback_long.1 _ (by norm_num) (by norm_num) (by norm_num),
   C4_fallback_long.2 6 25 (by norm_num) (by norm_num)⟩

/-- C7: the yuki RSI always lies in [0, 100] and equals 100 whenever the
rolling average loss is zero with positive average gain; but the binance
variant of the same calculation returns NaN (no value) on the non-empty
three-price series [1, 2, 3] instead of a value in [0, 100], because its
guard checks emptiness rather than NaN. -/
theorem C7_rsi_bounds :
    (∀ prices : List ℚ, 0 ≤ calculateRsi prices ∧ calculateRsi prices ≤ 100) ∧
    (∀ prices : List ℚ, 14 ≤ prices.length → avgLoss prices = 0 →
      0 < avgGain prices → calculateRsi prices = 100) ∧
    binanceRsi [1, 2, 3] = none := by
  refine ⟨?_, ?_, by decide⟩
  · intro prices
    unfold calculateRsi
    split_ifs with h1 h2 h3
    · norm_num
    · have hg := avgGain_nonneg prices
      have hrs : 0 ≤ avgGain prices / avgLoss prices := div_nonneg hg h2.le
      have hpos : (0:ℚ) < 1 + avgGain prices / avgLoss prices := by linarith
      have hle : 100 / (1 + avgGain prices / avgLoss prices) ≤ 100 :=
        div_le_self (by norm_num) (by linarith)
      have hgt : 0 < 100 / (1 + avgGain prices / avgLoss prices) :=
        div_pos (by norm_num) hpos
      constructor <;> linarith
    · norm_num
    · norm_num
  · intro prices hlen hl hg
    unfold calculateRsi
    rw [if_neg (not_lt.mpr hlen), if_neg (by rw [hl]; norm_num), if_pos hg]

/-- C7 witness: a strictly increasing 15-price series has zero average loss
and positive average gain, so its RSI is 100. -/
theorem C7_rsi_bounds_witness :
    calculateRsi [1, 2, 3, 4, 5, 6, 7, 8, 9, 10, 11, 12, 13, 14, 15] = 100 :=
  C7_rsi_bounds.2.1 _ (by norm_num)
    (by norm_num [avgLoss, lastWindow, priceDeltas])
    (by norm_num [avgGain, lastWindow, priceDeltas])

/-- C1 counterexample: when all four strategies fail (the first three return
nothing and the key-value scrape recovers no pair), the parser pipeline does
not signal a failure — it returns the empty dict, and `_parse_llm_response`
turns it into the all-default decision record (HOLD, confidence 0.5). -/
theorem C1_counterexample :
    parseLLMFromDict 100 (parseJsonWithFallbacks none none none []) =
      defaultLLMAnalysisR := by
  show parseLLMFromDict 100 [] = defaultLLMAnalysisR
  unfold parseLLMFromDict defaultLLMAnalysisR
  norm_num [getStr, getObj, getArr, dictGet, safeFloat, min_def, max_def]
  all_goals decide

/-- C1 amended: if strategies 1-3 fail and the key-value scrape recovers no
pair, `_parse_json_with_fallbacks` returns the empty dict (not an explicit
failure), and the record subsequently built by `_parse_llm_response` is
exactly the all-default record, for every current price. -/
theorem C1_parse_fallback_default (s1 s2 s3 : Option JDict) (s4 : JDict)
    (current_price : ℚ) (h1 : s1 = none) (h2 : s2 = none) (h3 : s3 = none)
    (h4 : s4 = []) :
    parseJsonWithFallbacks s1 s2 s3 s4 = [] ∧
    parseLLMFromDict current_price (parseJsonWithFallbacks s1 s2 s3 s4) =
      defaultLLMAnalysisR := by
  subst h1; subst h2; subst h3; subst h4
  refine ⟨rfl, ?_⟩
  show parseLLMFromDict current_price [] = defaultLLMAnalysisR
  unfold parseLLMFromDict defaultLLMAnalysisR
  norm_num [getStr, getObj, getArr, dictGet, safeFloat, min_def, max_def]
  all_goals decide

/-- C1 witness: the all-fail instantiation at current price 250. -/
theorem C1_parse_fallback_default_witness :
    parseJsonWithFallbacks none none none [] = [] ∧
    parseLLMFromDict 250 (parseJsonWithFallbacks none none none []) =
      defaultLLMAnalysisR :=
  C1_parse_fallback_default none none none [] 250 rfl rfl rfl rfl


theorem log_ten_ne_zero : Real.log 10 ≠ 0 :=
  ne_of_gt (Real.log_pos (by norm_num))

theorem logb_ten_thousand : Real.logb 10 1000 = 3 := by
  rw [show (1000 : ℝ) = 10 ^ (3 : ℕ) by norm_num, Real.logb, Real.log_pow]
  field_simp

theorem logb_ten_tenth : Real.logb 10 (1 / 10) = -1 := by
  rw [show (1 / 10 : ℝ) = (10 : ℝ)⁻¹ by norm_num, Real.logb, Real.log_inv]
  field_simp

theorem volumeScore_at_ref : volumeScore 1000000 = 0 := by
  unfold volumeScore
  norm_num [Real.logb_one, min_def]

theorem volumeScore_at_1e9 : volumeScore 1000000000 = 1 := by
  unfold volumeScore
  norm_num [logb_ten_thousand, min_def]

theorem volumeScore_at_1e5 : volumeScore 100000 = -(1 / 3) := by
  unfold volumeScore
  norm_num [logb_ten_tenth, min_def]

theorem volatilityOf_nonneg (inp : ScoreInput) (h : inp.low_24h ≤ inp.high_24h) :
    0 ≤ volatilityOf inp := by
  unfold volatilityOf
  split_ifs with hp
  · exact div_nonneg (by linarith) hp.le
  · exact le_refl 0

theorem volatilityScore_bounds (v : ℝ) (hv : 0 ≤ v) :
    0 ≤ volatilityScore v ∧ volatilityScore v ≤ 1 := by
  unfold volatilityScore
  split_ifs with h
  · constructor
    · positivity
    · rw [div_le_one (by norm_num)]
      linarith
  · constructor
    · exact le_trans (by norm_num) (le_max_left _ _)
    · apply max_le (by norm_num)
      have : 0 ≤ (v - 0.20) / 0.30 := by
        apply div_nonneg _ (by norm_num)
        linarith
      linarith

theorem momentumScoreOf_bounds (change : ℝ) :
    0 ≤ momentumScoreOf change ∧ momentumScoreOf change ≤ 1 := by
  have habs : 0 ≤ |change| := abs_nonneg change
  simp only [momentumScoreOf]
  split_ifs with h1 h2
  · constructor
    · positivity
    · rw [div_le_one (by norm_num)]
      linarith
  · constructor
    · have : (|change| - 5) / 15 ≤ 1 := by
        rw [div_le_one (by norm_num)]
        linarith
      linarith
    · have : 0 ≤ (|change| - 5) / 15 := by
        apply div_nonneg _ (by norm_num)
        linarith
      linarith
  · constructor
    · exact le_max_left 0 _
    · apply max_le (by norm_num)
      have : 0 ≤ (|change| - 15) / 30 := by
        apply div_nonneg _ (by norm_num)
        linarith
      linarith

theorem setupScoreOf_bounds (inp : ScoreInput) :
    0 ≤ (setupScoreOf inp).1 ∧ (setupScoreOf inp).1 ≤ 1 := by
  simp only [setupScoreOf]
  split_ifs <;> norm_num

/-- C3 counterexample: at 24h volume 100,000 (below the 1,000,000 reference),
the volume sub-score is -1/3, outside [0, 1] — it is not clamped below. -/
theorem C3_counterexample :
    volumeScore 100000 = -(1 / 3) ∧ volumeScore 100000 < 0 :=
  ⟨volumeScore_at_1e5, by rw [volumeScore_at_1e5]; norm_num⟩

/-- C3 amended: given low ≤ high, the volatility, momentum and trend/setup
sub-scores always lie in [0, 1]; the volume sub-score is only clamped above
(it is at most 1, and nonnegative exactly for volumes at or above the
1,000,000 reference, going negative below it). -/
theorem C3_subscore_ranges :
    (∀ inp : ScoreInput, inp.low_24h ≤ inp.high_24h →
      0 ≤ volatilityScore (volatilityOf inp) ∧ volatilityScore (volatilityOf inp) ≤ 1) ∧
    (∀ change : ℝ, 0 ≤ momentumScoreOf change ∧ momentumScoreOf change ≤ 1) ∧
    (∀ inp : ScoreInput, 0 ≤ (setupScoreOf inp).1 ∧ (setupScoreOf inp).1 ≤ 1) ∧
    (∀ v : ℝ, volumeScore v ≤ 1) ∧
    (∀ v : ℝ, 1000000 ≤ v → 0 ≤ volumeScore v) := by
  refine ⟨?_, momentumScoreOf_bounds, setupScoreOf_bounds, ?_, ?_⟩
  · intro inp h
    exact volatilityScore_bounds _ (volatilityOf_nonneg inp h)
  · intro v
    exact min_le_left 1 _
  · intro v hv
    unfold volumeScore
    apply le_min (by norm_num)
    apply div_nonneg _ (by norm_num)
    apply Real.logb_nonneg (by norm_num)
    rw [le_div_iff (by norm_num)]
    linarith

/-- C3 witness: a synthetic snapshot (price 100, change +2, volume 10,000,000,
high 103, low 97) has all four sub-scores behaving as the amended claim
states. -/
theorem C3_subscore_ranges_witness :
    (0 ≤ volatilityScore (volatilityOf ⟨100, 2, 10000000, 103, 97⟩) ∧
      volatilityScore (volatilityOf ⟨100, 2, 10000000, 103, 97⟩) ≤ 1) ∧
    (0 ≤ momentumScoreOf 2 ∧ momentumScoreOf 2 ≤ 1) ∧
    (0 ≤ (setupScoreOf ⟨100, 2, 10000000, 103, 97⟩).1 ∧
      (setupScoreOf ⟨100, 2, 10000000, 103, 97⟩).1 ≤ 1) ∧
    volumeScore 10000000 ≤ 1 ∧ 0 ≤ volumeScore 10000000 :=
  ⟨C3_subscore_ranges.1 ⟨100, 2, 10000000, 103, 97⟩ (by norm_num),
   C3_subscore_ranges.2.1 2,
   C3_subscore_ranges.2.2.1 ⟨100, 2, 10000000, 103, 97⟩,
   C3_subscore_ranges.2.2.2.1 10000000,
   C3_subscore_ranges.2.2.2.2 10000000 (by norm_num)⟩

/-- Overall score at the first probe snapshot (all four sub-scores at their
values 0, 0, 0, 0.5). -/
theorem overallScore_probeA : overallScore ⟨100, 0, 1000000, 100, 100⟩ = 1 / 8 := by
  norm_num [overallScore, volumeScore, volatilityOf, volatilityScore,
    momentumScoreOf, setupScoreOf, wVolume, wVolatility, wMomentum, wTrend,
    wInstitutional, institutionalScore, Real.logb_one, min_def, max_def, abs_zero]

/-- Overall score at the second probe snapshot (volume sub-score 1). -/
theorem overallScore_probeB : overallScore ⟨100, 0, 1000000000, 100, 100⟩ = 3 / 8 := by
  norm_num [overallScore, volumeScore, volatilityOf, volatilityScore,
    momentumScoreOf, setupScoreOf, wVolume, wVolatility, wMomentum, wTrend,
    wInstitutional, institutionalScore, logb_ten_thousand, min_def, max_def, abs_zero]

/-- Overall score at the third probe snapshot (momentum sub-score 1). -/
theorem overallScore_probeC : overallScore ⟨100, 5, 1000000, 100, 100⟩ = 17 / 40 := by
  norm_num [overallScore, volumeScore, volatilityOf, volatilityScore,
    momentumScoreOf, setupScoreOf, wVolume, wVolatility, wMomentum, wTrend,
    wInstitutional, institutionalScore, Real.logb_one, min_def, max_def,
    abs_of_nonneg]

/-- Overall score at the fourth probe snapshot (volatility sub-score 1,
setup sub-score 0.4). -/
theorem overallScore_probeE : overallScore ⟨100, 0, 1000000, 110, 90⟩ = 31 / 100 := by
  norm_num [overallScore, volumeScore, volatilityOf, volatilityScore,
    momentumScoreOf, setupScoreOf, wVolume, wVolatility, wMomentum, wTrend,
    wInstitutional, institutionalScore, Real.logb_one, min_def, max_def, abs_zero]

/-- C2 counterexample: no fixed convex combination of the four sub-scores
(volume, volatility, momentum, trend/setup) reproduces the overall score on
all valid inputs — with or without a final clamp to [0, 1]: four concrete
snapshots force the weights 0.25, 0.21, 0.30, 0.25, which sum to 1.01.  (The
code adds a fifth, constant institutional term at weight 0.10.) -/
theorem C2_counterexample :
    (¬ ∃ w1 w2 w3 w4 : ℝ,
      (0 ≤ w1 ∧ 0 ≤ w2 ∧ 0 ≤ w3 ∧ 0 ≤ w4) ∧ w1 + w2 + w3 + w4 = 1 ∧
      ∀ inp : ScoreInput, 0 < inp.current_price → 0 < inp.volume_24h →
        inp.low_24h ≤ inp.high_24h →
        overallScore inp =
          w1 * volumeScore inp.volume_24h +
          w2 * volatilityScore (volatilityOf inp) +
          w3 * momentumScoreOf inp.price_change_24h +
          w4 * (setupScoreOf inp).1) ∧
    (¬ ∃ w1 w2 w3 w4 : ℝ,
      (0 ≤ w1 ∧ 0 ≤ w2 ∧ 0 ≤ w3 ∧ 0 ≤ w4) ∧ w1 + w2 + w3 + w4 = 1 ∧
      ∀ inp : ScoreInput, 0 < inp.current_price → 0 < inp.volume_24h →
        inp.low_24h ≤ inp.high_24h →
        overallScore inp = max 0 (min 1
          (w1 * volumeScore inp.volume_24h +
           w2 * volatilityScore (volatilityOf inp) +
           w3 * momentumScoreOf inp.price_change_24h +
           w4 * (setupScoreOf inp).1))) := by
  have hvolat0 : volatilityScore 0 = 0 := by norm_num [volatilityScore]
  have hvolat1 : volatilityScore (1 / 5) = 1 := by norm_num [volatilityScore]
  have hmom0 : momentumScoreOf 0 = 0 := by norm_num [momentumScoreOf, abs_zero]
  have hmom5 : momentumScoreOf 5 = 1 := by norm_num [momentumScoreOf, abs_of_nonneg]
  have hvofA : volatilityOf ⟨100, 0, 1000000, 100, 100⟩ = 0 := by
    norm_num [volatilityOf]
  have hvofB : volatilityOf ⟨100, 0, 1000000000, 100, 100⟩ = 0 := by
    norm_num [volatilityOf]
  have hvofC : volatilityOf ⟨100, 5, 1000000, 100, 100⟩ = 0 := by
    norm_num [volatilityOf]
  have hvofE : volatilityOf ⟨100, 0, 1000000, 110, 90⟩ = 1 / 5 := by
    norm_num [volatilityOf]
  have hsetA : (setupScoreOf ⟨100, 0, 1000000, 100, 100⟩).1 = 1 / 2 := by
    norm_num [setupScoreOf]
  have hsetB : (setupScoreOf ⟨100, 0, 1000000000, 100, 100⟩).1 = 1 / 2 := by
    norm_num [setupScoreOf]
  have hsetC : (setupScoreOf ⟨100, 5, 1000000, 100, 100⟩).1 = 1 / 2 := by
    norm_num [setupScoreOf]
  have hsetE : (setupScoreOf ⟨100, 0, 1000000, 110, 90⟩).1 = 2 / 5 := by
    norm_num [setupScoreOf]
  constructor
  · rintro ⟨w1, w2, w3, w4, -, hsum, hall⟩
    have hA := hall ⟨100, 0, 1000000, 100, 100⟩ (by norm_num) (by norm_num) (by norm_num)
    have hB := hall ⟨100, 0, 1000000000, 100, 100⟩ (by norm_num) (by norm_num) (by norm_num)
    have hC := hall ⟨100, 5, 1000000, 100, 100⟩ (by norm_num) (by norm_num) (by norm_num)
    have hE := hall ⟨100, 0, 1000000, 110, 90⟩ (by norm_num) (by norm_num) (by norm_num)
    dsimp only at hA hB hC hE
    rw [overallScore_probeA, volumeScore_at_ref, hvofA, hvolat0, hmom0, hsetA] at hA
    rw [overallScore_probeB, volumeScore_at_1e9, hvofB, hvolat0, hmom0, hsetB] at hB
    rw [overallScore_probeC, volumeScore_at_ref, hvofC, hvolat0, hmom5, hsetC] at hC
    rw [overallScore_probeE, volumeScore_at_ref, hvofE, hvolat1, hmom0, hsetE] at hE
    linarith
  · rintro ⟨w1, w2, w3, w4, ⟨hw1, hw2, hw3, hw4⟩, hsum, hall⟩
    have hw1le : w1 ≤ 1 := by linarith
    have hw3le : w3 ≤ 1 := by linarith
    have hw4le : w4 ≤ 1 := by linarith
    have hA := hall ⟨100, 0, 1000000, 100, 100⟩ (by norm_num) (by norm_num) (by norm_num)
    have hB := hall ⟨100, 0, 1000000000, 100, 100⟩ (by norm_num) (by norm_num) (by norm_num)
    have hC := hall ⟨100, 5, 1000000, 100, 100⟩ (by norm_num) (by norm_num) (by norm_num)
    have hE := hall ⟨100, 0, 1000000, 110, 90⟩ (by norm_num) (by norm_num) (by norm_num)
    dsimp only at hA hB hC hE
    rw [overallScore_probeA, volumeScore_at_ref, hvofA, hvolat0, hmom0, hsetA] at hA
    rw [overallScore_probeB, volumeScore_at_1e9, hvofB, hvolat0, hmom0, hsetB] at hB
    rw [overallScore_probeC, volumeScore_at_ref, hvofC, hvolat0, hmom5, hsetC] at hC
    rw [overallScore_probeE, volumeScore_at_ref, hvofE, hvolat1, hmom0, hsetE] at hE
    rw [show w1 * (0:ℝ) + w2 * 0 + w3 * 0 + w4 * (1 / 2) = w4 / 2 by ring,
      min_eq_right (by linarith), max_eq_right (by linarith)] at hA
    rw [show w1 * (1:ℝ) + w2 * 0 + w3 * 0 + w4 * (1 / 2) = w1 + w4 / 2 by ring,
      min_eq_right (by linarith), max_eq_right (by linarith)] at hB
    rw [show w1 * (0:ℝ) + w2 * 0 + w3 * 1 + w4 * (1 / 2) = w3 + w4 / 2 by ring,
      min_eq_right (by linarith), max_eq_right (by linarith)] at hC
    rw [show w1 * (0:ℝ) + w2 * 1 + w3 * 0 + w4 * (2 / 5) = w2 + 2 * w4 / 5 by ring,
      min_eq_right (by linarith), max_eq_right (by linarith)] at hE
    linarith

/-- C2 amended: the overall score is the clamp to [0, 1] of the weighted sum
of five scores — the four sub-scores plus the constant institutional
placeholder 0.5 at weight 0.10 — whose five weights sum to 1.0; the overall
score always lies in [0, 1]. -/
theorem C2_overall_weighted (inp : ScoreInput) :
    overallScore inp = max 0 (min 1
      (wVolume * volumeScore inp.volume_24h +
        wVolatility * volatilityScore (volatilityOf inp) +
        wMomentum * momentumScoreOf inp.price_change_24h +
        wTrend * (setupScoreOf inp).1 +
        wInstitutional * institutionalScore)) ∧
    wVolume + wVolatility + wMomentum + wTrend + wInstitutional = 1 ∧
    0 ≤ overallScore inp ∧ overallScore inp ≤ 1 := by
  refine ⟨rfl, by norm_num [wVolume, wVolatility, wMomentum, wTrend, wInstitutional],
    le_max_left 0 _, ?_⟩
  unfold overallScore
  exact max_le (by norm_num) (min_le_left _ _)

theorem bbExampleA_mean : rollingMean20 bbExampleA = 100 := by
  norm_num [rollingMean20, lastWindowR, bbExampleA]

theorem bbExampleA_std : rollingStd20 bbExampleA = 2 := by
  unfold rollingStd20
  rw [bbExampleA_mean]
  norm_num [lastWindowR, bbExampleA]
  rw [show (4 : ℝ) = 2 ^ 2 by norm_num]
  exact Real.sqrt_sq (by norm_num)

theorem bbExampleA_upper : bbUpper bbExampleA = 104 := by
  unfold bbUpper
  rw [if_neg (by norm_num [bbExampleA]), bbExampleA_mean, bbExampleA_std]
  norm_num

theorem bbExampleA_lower : bbLower bbExampleA = 96 := by
  unfold bbLower
  rw [if_neg (by norm_num [bbExampleA]), bbExampleA_mean, bbExampleA_std]
  norm_num

theorem bbExampleB_mean : rollingMean20 bbExampleB = 100 := by
  norm_num [rollingMean20, lastWindowR, bbExampleB]

theorem bbExampleB_std : rollingStd20 bbExampleB = Real.sqrt (8 / 19) := by
  unfold rollingStd20
  rw [bbExampleB_mean]
  norm_num [lastWindowR, bbExampleB]

theorem bbExampleB_std_pos : 0 < rollingStd20 bbExampleB := by
  rw [bbExampleB_std]
  exact Real.sqrt_pos.mpr (by norm_num)

theorem bbExampleB_upper : bbUpper bbExampleB = 100 + rollingStd20 bbExampleB * 2 := by
  unfold bbUpper
  rw [if_neg (by norm_num [bbExampleB]), bbExampleB_mean]

theorem bbExampleB_lower : bbLower bbExampleB = 100 - rollingStd20 bbExampleB * 2 := by
  unfold bbLower
  rw [if_neg (by norm_num [bbExampleB]), bbExampleB_mean]

/-- C6 counterexample: on a concrete 20-close series the band position is
1.25, outside [0, 1] — it is not clamped; and on a second concrete series the
band position is 0.5 although the upper and lower bands differ, so 0.5 does
not characterise the degenerate band. -/
theorem C6_counterexample :
    bbPosition bbExampleA = 1.25 ∧ 1 < bbPosition bbExampleA ∧
    bbUpper bbExampleB ≠ bbLower bbExampleB ∧ bbPosition bbExampleB = 0.5 := by
  have hpos : bbPosition bbExampleA = 1.25 := by
    unfold bbPosition
    rw [if_pos (by rw [bbExampleA_upper, bbExampleA_lower]; norm_num)]
    rw [bbExampleA_upper, bbExampleA_lower,
      show bbExampleA.getLastD 0 = 106 from rfl]
    norm_num
  have hs := bbExampleB_std_pos
  have hneB : bbUpper bbExampleB ≠ bbLower bbExampleB := by
    rw [bbExampleB_upper, bbExampleB_lower]
    intro heq
    nlinarith
  refine ⟨hpos, by rw [hpos]; norm_num, hneB, ?_⟩
  unfold bbPosition
  rw [if_pos hneB, bbExampleB_upper, bbExampleB_lower,
    show bbExampleB.getLastD 0 = 100 from rfl]
  rw [div_eq_iff (by nlinarith)]
  ring

/-- C6 amended: the band position equals 0.5 whenever the upper and lower
bands coincide (including the insufficient-history case where both bands are
0), and otherwise equals the unclamped ratio
`(last close - lower) / (upper - lower)`, which can leave [0, 1]. -/
theorem C6_bb_position (l : List ℝ) :
    (bbUpper l = bbLower l → bbPosition l = 0.5) ∧
    (bbUpper l ≠ bbLower l →
      bbPosition l = (l.getLastD 0 - bbLower l) / (bbUpper l - bbLower l)) ∧
    (l.length < 20 → bbPosition l = 0.5) := by
  refine ⟨?_, ?_, ?_⟩
  · intro h
    unfold bbPosition
    rw [if_neg (by simp [h])]
  · intro h
    unfold bbPosition
    rw [if_pos h]
  · intro h
    have hu : bbUpper l = 0 := by unfold bbUpper; rw [if_pos h]
    have hl2 : bbLower l = 0 := by unfold bbLower; rw [if_pos h]
    unfold bbPosition
    rw [if_neg (by simp [hu, hl2])]

/-- C6 witness: the empty series has fewer than 20 closes, so the bands
degenerate and the band position is the neutral 0.5. -/
theorem C6_bb_position_witness : bbPosition [] = 0.5 :=
  (C6_bb_position []).2.2 (by norm_num)

theorem rlAcquire_full (t ta : ℚ) (s : RLState)
    (h : requestsPerMinute ≤
      (s.request_times.dropWhile (fun x => decide (x < t - 60))).length) :
    rlAcquire t ta s =
      (false, { request_times := s.request_times.dropWhile (fun x => decide (x < t - 60)),
                last_request_time := s.last_request_time }) := by
  unfold rlAcquire
  rw [if_pos h]

theorem rlAcquire_grant (t ta : ℚ) (s : RLState)
    (h : ¬ requestsPerMinute ≤
      (s.request_times.dropWhile (fun x => decide (x < t - 60))).length) :
    rlAcquire t ta s =
      (true,
        RLState.mk
          (s.request_times.dropWhile (fun x => decide (x < t - 60)) ++
            [if t - s.last_request_time < minRequestInterval then ta else t])
          (if t - s.last_request_time < minRequestInterval then ta else t)) := by
  unfold rlAcquire
  rw [if_neg h]

theorem dropWhile_eq_drop (p : ℚ → Bool) :
    ∀ l : List ℚ, ∃ j, j ≤ l.length ∧ l.dropWhile p = l.drop j ∧
      ∀ x ∈ l.take j, p x = true := by
  intro l
  induction l with
  | nil => exact ⟨0, by simp, by simp, by simp⟩
  | cons a t ih =>
    by_cases hpa : p a = true
    · obtain ⟨j, hj, hdw, htk⟩ := ih
      refine ⟨j + 1, Nat.succ_le_succ hj, ?_, ?_⟩
      · rw [List.dropWhile_cons, if_pos hpa, List.drop_succ_cons]
        exact hdw
      · intro x hx
        rw [List.take_succ_cons] at hx
        rcases List.mem_cons.mp hx with rfl | hx2
        · exact hpa
        · exact htk x hx2
    · refine ⟨0, Nat.zero_le _, ?_, by simp⟩
      rw [List.dropWhile_cons, if_neg hpa, List.drop_zero]

theorem rlWindowCount_append (w : ℚ) (l : List ℚ) (x : ℚ) :
    rlWindowCount w (l ++ [x]) =
      rlWindowCount w l + (if w < x ∧ x ≤ w + 60 then 1 else 0) := by
  unfold rlWindowCount
  rw [List.filter_append, List.length_append]
  congr 1
  by_cases h : w < x ∧ x ≤ w + 60
  · rw [if_pos h]
    simp [h]
  · rw [if_neg h]
    simp [h]

theorem rlRun_window_bound (calls : List (ℚ × ℚ)) :
    ∀ (s : RLState) (H : List ℚ) (k : ℕ) (c : ℚ),
      s.request_times = H.drop k → k ≤ H.length →
      (∀ x ∈ H.take k, x < c) →
      (∀ w, rlWindowCount w H ≤ requestsPerMinute) →
      rlChron c calls →
      ∀ w, rlWindowCount w (rlRun s H calls).2 ≤ requestsPerMinute := by
  induction calls with
  | nil =>
    intro s H k c hdrop hk htake hQ hch w
    exact hQ w
  | cons call rest ih =>
    obtain ⟨t, ta⟩ := call
    intro s H k c hdrop hk htake hQ hch w
    obtain ⟨hc_le, hta, hch2⟩ := hch
    obtain ⟨j, hj, hdw, htkj⟩ :=
      dropWhile_eq_drop (fun x => decide (x < t - 60)) (H.drop k)
    have hkept : s.request_times.dropWhile (fun x => decide (x < t - 60)) =
        H.drop (k + j) := by
      rw [hdrop, hdw, List.drop_drop]
    have hk2 : k + j ≤ H.length := by
      have hlen : (H.drop k).length = H.length - k := List.length_drop k H
      omega
    have htake2 : ∀ x ∈ H.take (k + j), x < t - 60 := by
      intro x hx
      rw [List.take_add] at hx
      rcases List.mem_append.mp hx with hx1 | hx2
      · exact lt_of_lt_of_le (htake x hx1) hc_le
      · exact of_decide_eq_true (htkj x hx2)
    by_cases hfull : requestsPerMinute ≤
        (s.request_times.dropWhile (fun x => decide (x < t - 60))).length
    · have hacq := rlAcquire_full t ta s hfull
      have hstep : (rlRun s H ((t, ta) :: rest)).2 =
          (rlRun { request_times := H.drop (k + j),
                   last_request_time := s.last_request_time } H rest).2 := by
        simp [rlRun, hacq, hkept]
      rw [hstep]
      exact ih _ H (k + j) (t - 60) rfl hk2 htake2 hQ hch2 w
    · have hacq := rlAcquire_grant t ta s hfull
      have hrect : t ≤ (if t - s.last_request_time < minRequestInterval then ta else t) := by
        split_ifs
        · exact hta
        · exact le_refl t
      have hstep : (rlRun s H ((t, ta) :: rest)).2 =
          (rlRun
            (RLState.mk
              (H.drop (k + j) ++
                [if t - s.last_request_time < minRequestInterval then ta else t])
              (if t - s.last_request_time < minRequestInterval then ta else t))
            (H ++ [if t - s.last_request_time < minRequestInterval then ta else t])
            rest).2 := by
        simp [rlRun, hacq, hkept]
      rw [hstep]
      set recT := if t - s.last_request_time < minRequestInterval then ta else t with hrecdef
      have hdrop2 : (H ++ [recT]).drop (k + j) = H.drop (k + j) ++ [recT] :=
        List.drop_append_of_le_length hk2
      have hk3 : k + j ≤ (H ++ [recT]).length := by
        rw [List.length_append]
        omega
      have htake3 : ∀ x ∈ (H ++ [recT]).take (k + j), x < t - 60 := by
        rw [List.take_append_of_le_length hk2]
        exact htake2
      have hQ2 : ∀ w2, rlWindowCount w2 (H ++ [recT]) ≤ requestsPerMinute := by
        intro w2
        rw [rlWindowCount_append]
        by_cases hin : w2 < recT ∧ recT ≤ w2 + 60
        · rw [if_pos hin]
          have hkeptlen : (H.drop (k + j)).length < requestsPerMinute := by
            rw [hkept] at hfull
            omega
          have hcount : rlWindowCount w2 H ≤ (H.drop (k + j)).length := by
            conv_lhs => rw [show H = H.take (k + j) ++ H.drop (k + j) from
              (List.take_append_drop (k + j) H).symm]
            unfold rlWindowCount
            rw [List.filter_append, List.length_append]
            have hpre : List.filter (fun x => decide (w2 < x ∧ x ≤ w2 + 60))
                (H.take (k + j)) = [] := by
              rw [List.filter_eq_nil_iff]
              intro x hx
              have hx60 : x < t - 60 := htake2 x hx
              have hxle : x ≤ w2 := by linarith [hrect, hin.2]
              simp only [decide_eq_true_eq, not_and]
              intro hcontra
              exact absurd hcontra (not_lt.mpr hxle)
            rw [hpre]
            simp only [List.length_nil, Nat.zero_add]
            exact List.length_filter_le _ _
          omega
        · rw [if_neg hin]
          have := hQ w2
          omega
      exact ih _ (H ++ [recT]) (k + j) (t - 60) hdrop2.symm hk3 htake3 hQ2 hch2 w

/-- C9: the rate limiter records a timestamp exactly when it grants the
request; it refuses whenever the timestamps still inside the trailing
60-second window already number `requests_per_minute`; and consequently, for
any chronological sequence of acquire calls starting from a fresh limiter, at
most `requests_per_minute` granted timestamps ever fall inside any sliding
one-minute window. -/
theorem C9_rate_limiter :
    (∀ (t ta : ℚ) (s : RLState),
        requestsPerMinute ≤
          (s.request_times.dropWhile (fun x => decide (x < t - 60))).length →
        (rlAcquire t ta s).1 = false) ∧
    (∀ (t ta : ℚ) (s : RLState),
        ((rlAcquire t ta s).1 = true →
          (rlAcquire t ta s).2.request_times =
            s.request_times.dropWhile (fun x => decide (x < t - 60)) ++
              [(rlAcquire t ta s).2.last_request_time]) ∧
        ((rlAcquire t ta s).1 = false →
          (rlAcquire t ta s).2.request_times =
            s.request_times.dropWhile (fun x => decide (x < t - 60)))) ∧
    (∀ (calls : List (ℚ × ℚ)) (c : ℚ), rlChron c calls →
        ∀ w, rlWindowCount w (rlRun rlInit [] calls).2 ≤ requestsPerMinute) := by
  refine ⟨?_, ?_, ?_⟩
  · intro t ta s h
    rw [rlAcquire_full t ta s h]
  · intro t ta s
    by_cases hfull : requestsPerMinute ≤
        (s.request_times.dropWhile (fun x => decide (x < t - 60))).length
    · rw [rlAcquire_full t ta s hfull]
      exact ⟨fun hc => by simp at hc, fun _ => rfl⟩
    · rw [rlAcquire_grant t ta s hfull]
      exact ⟨fun _ => rfl, fun hc => by simp at hc⟩
  · intro calls c hch w
    exact rlRun_window_bound calls rlInit [] 0 c rfl (Nat.zero_le _)
      (by simp) (fun w2 => by simp [rlWindowCount]) hch w

/-- C9 witness: a full window of 1000 recorded timestamps forces refusal; a
fresh limiter grants and records; and a single chronological call keeps every
sliding window within the ceiling. -/
theorem C9_rate_limiter_witness :
    (rlAcquire 0 0 (RLState.mk (List.replicate 1000 100) 0)).1 = false ∧
    (rlAcquire 100 100 rlInit).2.request_times =
      rlInit.request_times.dropWhile (fun x => decide (x < 100 - 60)) ++
        [(rlAcquire 100 100 rlInit).2.last_request_time] ∧
    rlWindowCount 50 (rlRun rlInit [] [(100, 100)]).2 ≤ requestsPerMinute := by
  have hdw : (List.replicate 1000 (100 : ℚ)).dropWhile
      (fun x => decide (x < 0 - 60)) = List.replicate 1000 100 := by
    rw [show (1000 : ℕ) = 999 + 1 from rfl, List.replicate_succ, List.dropWhile_cons]
    norm_num
  refine ⟨C9_rate_limiter.1 0 0 _ ?_, (C9_rate_limiter.2.1 100 100 rlInit).1 ?_, ?_⟩
  · show requestsPerMinute ≤
      ((List.replicate 1000 (100 : ℚ)).dropWhile (fun x => decide (x < 0 - 60))).length
    rw [hdw, List.length_replicate]
    norm_num [requestsPerMinute]
  · rfl
  · exact C9_rate_limiter.2.2 [(100, 100)] 40 (by norm_num [rlChron]) 50

end Floww
